import Mathlib

/-!
Verification development for the chain-guru repository.

This file gives a shallow embedding, in Lean 4, of the parts of the
repository relevant to the frozen claims:

* `utils.py` — `is_safe_url` (the Safe Fetch Gate's validate function),
  `is_private_ip`, `clean_number`, together with models of the pieces of
  the Python standard library they call (`urllib.parse.urlparse`,
  `ipaddress.ip_address` and its classification properties, `float`).
  DNS resolution (`socket.getaddrinfo`) is modelled as an oracle
  parameter; a Python exception escaping a function is modelled by the
  `PyResult.exn` constructor.
* `measure_tps.py` — `measure_evm`, `measure_bitcoin`,
  `measure_chain_dispatcher`, and the `INSERT OR REPLACE` upsert done by
  `main`; network fetches are modelled as oracles returning already
  JSON-decoded data.
* `measure_non_evm.py` — `measure_cosmos`.
* `measure_force_evm.py` — `process_chain_failover`.
* `scrape_explorer.py` — the network-event trace of `scrape_chain`.

Python `float` values are modelled as exact rationals (`Rat`); the
estimates involved are ratios of machine-size integers, where binary
rounding plays no role in any claim under study.
-/

set_option maxRecDepth 8000

namespace ChainGuru

/-! ### Generic character and list helpers (Python string semantics) -/

/-- Characters Python's `str.strip()` removes (ASCII whitespace set). -/
def pyWs (c : Char) : Bool :=
  c = ' ' || c = '\t' || c = '\n' || c = '\x0d' || c = '\x0b' || c = '\x0c'

/-- Python `s.strip()` on a character list: drop whitespace at both ends. -/
def pyStrip (l : List Char) : List Char :=
  ((l.dropWhile pyWs).reverse.dropWhile pyWs).reverse

/-- Python `s.strip(".")`: drop dots at both ends. -/
def stripDotsL (l : List Char) : List Char :=
  ((l.dropWhile (· = '.')).reverse.dropWhile (· = '.')).reverse

/-- Lower-case a string character by character (ASCII, as in the hostnames involved). -/
def lowerStr (s : String) : String := ⟨s.data.map Char.toLower⟩

/-- Python `s.split(sep)` for a one-character separator: `"".split(c) = [""]`. -/
def splitOnChar (sep : Char) (l : List Char) : List (List Char) :=
  l.foldr
    (fun c acc =>
      match acc with
      | [] => [[c]]
      | a :: as => if c = sep then [] :: a :: as else (c :: a) :: as)
    [[]]

/-- Python `s.partition(sep)` for a one-character separator:
split at the first occurrence, returning (before, found?, after). -/
def partChar (sep : Char) : List Char → List Char × Bool × List Char
  | [] => ([], false, [])
  | c :: cs =>
    if c = sep then ([], true, cs)
    else
      let r := partChar sep cs
      (c :: r.1, r.2.1, r.2.2)

/-- The part after the last occurrence of `sep` (the whole list when absent),
as in Python `s.rpartition(sep)[2]` when the code keeps only that component. -/
def afterLastChar (sep : Char) (l : List Char) : List Char :=
  (l.reverse.takeWhile (· ≠ sep)).reverse

/-- Numeric value of a list of decimal digits. -/
def decToNat (l : List Char) : Nat :=
  l.foldl (fun a c => a * 10 + (c.toNat - '0'.toNat)) 0

/-- Value of one hexadecimal digit, if it is one. -/
def hexDigitVal (c : Char) : Option Nat :=
  if '0' ≤ c ∧ c ≤ '9' then some (c.toNat - '0'.toNat)
  else if 'a' ≤ c ∧ c ≤ 'f' then some (c.toNat - 'a'.toNat + 10)
  else if 'A' ≤ c ∧ c ≤ 'F' then some (c.toNat - 'A'.toNat + 10)
  else none

/-! ### Model of `urllib.parse.urlparse` on the fields `is_safe_url` reads

`is_safe_url` reads `parsed.scheme`, `parsed.hostname` and `parsed.port`.
The model reproduces CPython `urlsplit`: strip leading C0-control/space
characters, remove tab/CR/LF, split off a scheme (letter followed by
letters, digits, `+`, `-`, `.`, then `:`), read the netloc after `//` up
to the next `/`, `?` or `#`, and fail (ValueError "Invalid IPv6 URL",
caught by `is_safe_url`) on an unbalanced bracket in the netloc.
`hostname` strips userinfo, brackets and the port and lower-cases;
`parsed.port` is modelled separately by `pyPortVal` because in CPython it
is a property whose access can raise. -/

/-- Characters allowed in a URL scheme after the first letter. -/
def schemeChar (c : Char) : Bool :=
  c.isAlpha || c.isDigit || c = '+' || c = '-' || c = '.'

/-- Split off the scheme as CPython `urlsplit` does; returns the
lower-cased scheme (or `""`) and the remainder. -/
def schemeSplit (l : List Char) : String × List Char :=
  match l.findIdx? (· = ':') with
  | some i =>
    if 0 < i ∧ (l.headD ' ').isAlpha ∧ (l.take i).all schemeChar then
      (⟨(l.take i).map Char.toLower⟩, l.drop (i + 1))
    else ("", l)
  | none => ("", l)

/-- The netloc: present only when the remainder starts with `//`; runs to
the next `/`, `?` or `#`. -/
def netlocOf (rest : List Char) : List Char :=
  if rest.take 2 = ['/', '/'] then
    (rest.drop 2).takeWhile (fun c => ¬ (c = '/' ∨ c = '?' ∨ c = '#'))
  else []

/-- The fields of a parsed URL that `is_safe_url` consumes. -/
structure UrlParts where
  scheme : String
  hostname : Option String
  portRaw : Option String
deriving Repr, DecidableEq

/-- Model of `urllib.parse.urlparse(url)` restricted to the fields read by
`is_safe_url`; `none` models the `ValueError` CPython raises on an
unbalanced `[`/`]` in the netloc. -/
def pyUrlparse (url : String) : Option UrlParts :=
  let l := (url.data.dropWhile (fun c => c.val ≤ 32)).filter
    (fun c => ¬ (c = '\t' ∨ c = '\x0d' ∨ c = '\n'))
  let sr := schemeSplit l
  let netloc := netlocOf sr.2
  if (netloc.contains '[' ∧ ¬ netloc.contains ']') ∨
     (netloc.contains ']' ∧ ¬ netloc.contains '[') then none
  else
    let hostinfo := afterLastChar '@' netloc
    let hp : List Char × List Char :=
      match partChar '[' hostinfo with
      | (_, true, bracketed) =>
        let r := partChar ']' bracketed
        (r.1, (partChar ':' r.2.2).2.2)
      | (_, false, _) =>
        let r := partChar ':' hostinfo
        (r.1, r.2.2)
    some
      { scheme := sr.1
        hostname := if hp.1 = [] then none else some ⟨hp.1.map Char.toLower⟩
        portRaw := if hp.2 = [] then none else some ⟨hp.2⟩ }

/-- Result of running a piece of Python code: a value, or an uncaught
exception carrying its message. -/
inductive PyResult (α : Type) where
  | ok (val : α)
  | exn (msg : String)
deriving Repr, DecidableEq

/-- Model of the CPython `parsed.port` property: `none` when no port is
present, the number when it is a decimal ≤ 65535, and a raised
`ValueError` (the `PyResult.exn` case) otherwise. -/
def pyPortVal : Option String → PyResult (Option Nat)
  | none => .ok none
  | some p =>
    if p.data ≠ [] ∧ p.data.all Char.isDigit then
      if decToNat p.data ≤ 65535 then .ok (some (decToNat p.data))
      else .exn "ValueError: Port out of range 0-65535"
    else .exn "ValueError: Port could not be cast to integer value"

/-! ### Model of `ipaddress.ip_address` and the classification properties

`utils.is_private_ip` reads `is_private`, `is_loopback`, `is_link_local`,
`is_reserved`, `is_multicast` and `is_unspecified` from the CPython
`ipaddress` module; the predicates below reproduce the module's network
lists.  An IPv4 address is its 32-bit value, an IPv6 address its 128-bit
value. -/

/-- An address as returned by `ipaddress.ip_address`. -/
inductive IpAddr where
  | v4 (n : Nat)
  | v6 (n : Nat)
deriving Repr, DecidableEq

/-- One dotted-quad octet: 1–3 decimal digits, no leading zero, ≤ 255. -/
def parseOctet (l : List Char) : Option Nat :=
  if l ≠ [] ∧ l.all Char.isDigit ∧ l.length ≤ 3 ∧ (1 < l.length → l.headD '0' ≠ '0') then
    if decToNat l ≤ 255 then some (decToNat l) else none
  else none

/-- Model of IPv4 parsing in `ipaddress.ip_address`. -/
def parseIPv4 (l : List Char) : Option Nat :=
  match (splitOnChar '.' l).mapM parseOctet with
  | some [a, b, c, d] => some (((a * 256 + b) * 256 + c) * 256 + d)
  | _ => none

/-- One IPv6 hextet: 1–4 hexadecimal digits. -/
def parseHextet (l : List Char) : Option Nat :=
  if 1 ≤ l.length ∧ l.length ≤ 4 then
    (l.mapM hexDigitVal).map (·.foldl (fun a d => a * 16 + d) 0)
  else none

/-- Token of the IPv6 colon-split: an empty part (candidate `::`), a
parsed hextet, or a malformed part. -/
inductive V6Part where
  | gap
  | grp (n : Nat)
  | bad
deriving Repr, DecidableEq

/-- Classify one colon-separated IPv6 part. -/
def v6PartOf (p : List Char) : V6Part :=
  if p = [] then .gap
  else match parseHextet p with
    | some n => .grp n
    | none => .bad

/-- Whether a token is the `::` gap. -/
def v6IsGap : V6Part → Bool
  | .gap => true
  | _ => false

/-- Whether a token is malformed. -/
def v6IsBad : V6Part → Bool
  | .bad => true
  | _ => false

/-- The group value of a token (0 for non-groups; only applied to groups). -/
def v6Val : V6Part → Nat
  | .grp n => n
  | _ => 0

/-- Fold a list of group tokens into a big-endian number, 16 bits each. -/
def v6Fold (l : List V6Part) : Nat :=
  l.foldl (fun a t => a * 65536 + v6Val t) 0

/-- Model of IPv6 parsing in `ipaddress.ip_address`, following CPython's
`_ip_int_from_string`: split on `:`, expand a trailing dotted quad into
two hextets, locate at most one inner `::`, and require leading/trailing
empty parts to belong to it.  Scoped addresses (`%zone`) are not
modelled and simply fail to parse. -/
def parseIPv6 (l : List Char) : Option Nat :=
  if l.contains '%' then none
  else
    let parts := splitOnChar ':' l
    if parts.length < 3 then none
    else
      let lastP := parts.getLastD []
      let toks : List V6Part :=
        if lastP.contains '.' then
          (parts.dropLast).map v6PartOf ++
            match parseIPv4 lastP with
            | some v => [.grp (v / 65536), .grp (v % 65536)]
            | none => [.bad]
        else parts.map v6PartOf
      if toks.any v6IsBad then none
      else
        let inner := (toks.drop 1).dropLast
        let headGap := v6IsGap (toks.headD .bad)
        let lastGap := v6IsGap (toks.getLastD .bad)
        match inner.findIdx? v6IsGap with
        | some j =>
          if 2 ≤ (inner.filter v6IsGap).length then none
          else
            let i := j + 1
            let hi := if headGap then i - 1 else i
            let lo0 := toks.length - i - 1
            let lo := if lastGap then lo0 - 1 else lo0
            if (headGap ∧ hi ≠ 0) ∨ (lastGap ∧ lo ≠ 0) ∨ 7 < hi + lo then none
            else
              let his := (toks.take i).drop (i - hi)
              let los := (toks.drop (i + 1)).take lo
              some (v6Fold his * 2 ^ (16 * (8 - (hi + lo) + lo)) + v6Fold los)
        | none =>
          if toks.length = 8 ∧ ¬ headGap ∧ ¬ lastGap then some (v6Fold toks)
          else none

/-- Model of `ipaddress.ip_address(s)`: IPv4 first, then IPv6; `none`
models the `ValueError` the callers catch. -/
def ip_address (s : String) : Option IpAddr :=
  match parseIPv4 s.data with
  | some n => some (.v4 n)
  | none => (parseIPv6 s.data).map .v6

/-- Dotted-quad numeral helper. -/
def v4Addr (a b c d : Nat) : Nat := ((a * 256 + b) * 256 + c) * 256 + d

/-- Membership of a 32-bit value in a CIDR network. -/
def v4In (n base maskBits : Nat) : Bool :=
  n / 2 ^ (32 - maskBits) = base / 2 ^ (32 - maskBits)

/-- Membership of a 128-bit value in a CIDR network. -/
def v6In (n base maskBits : Nat) : Bool :=
  n / 2 ^ (128 - maskBits) = base / 2 ^ (128 - maskBits)

/-- CPython `IPv4Address.is_private` (the module's private-network list). -/
def v4IsPrivate (n : Nat) : Bool :=
  v4In n (v4Addr 0 0 0 0) 8 || v4In n (v4Addr 10 0 0 0) 8 ||
  v4In n (v4Addr 127 0 0 0) 8 || v4In n (v4Addr 169 254 0 0) 16 ||
  v4In n (v4Addr 172 16 0 0) 12 || v4In n (v4Addr 192 0 0 0) 29 ||
  v4In n (v4Addr 192 0 0 170) 31 || v4In n (v4Addr 192 0 2 0) 24 ||
  v4In n (v4Addr 192 168 0 0) 16 || v4In n (v4Addr 198 18 0 0) 15 ||
  v4In n (v4Addr 198 51 100 0) 24 || v4In n (v4Addr 203 0 113 0) 24 ||
  v4In n (v4Addr 240 0 0 0) 4 || n = v4Addr 255 255 255 255

/-- CPython `IPv6Address.is_private` (the module's private-network list). -/
def v6IsPrivate (n : Nat) : Bool :=
  n = 1 || n = 0 || v6In n (0xffff * 2 ^ 32) 96 ||
  v6In n (0x100 * 2 ^ 112) 64 || v6In n (0x2001 * 2 ^ 112) 23 ||
  v6In n ((0x2001 * 65536 + 0xdb8) * 2 ^ 96) 32 ||
  v6In n (0xfc00 * 2 ^ 112) 7 || v6In n (0xfe80 * 2 ^ 112) 10

/-- CPython `IPv6Address.is_reserved` (the module's reserved-network list). -/
def v6IsReserved (n : Nat) : Bool :=
  v6In n 0 8 || v6In n (0x100 * 2 ^ 112) 8 || v6In n (0x200 * 2 ^ 112) 7 ||
  v6In n (0x400 * 2 ^ 112) 6 || v6In n (0x800 * 2 ^ 112) 5 ||
  v6In n (0x1000 * 2 ^ 112) 4 || v6In n (0x4000 * 2 ^ 112) 3 ||
  v6In n (0x6000 * 2 ^ 112) 3 || v6In n (0x8000 * 2 ^ 112) 3 ||
  v6In n (0xa000 * 2 ^ 112) 3 || v6In n (0xc000 * 2 ^ 112) 3 ||
  v6In n (0xe000 * 2 ^ 112) 4 || v6In n (0xf000 * 2 ^ 112) 5 ||
  v6In n (0xf800 * 2 ^ 112) 6 || v6In n (0xfe00 * 2 ^ 112) 9

/-- Model of `utils.is_private_ip`: the disjunction of the six `ipaddress`
classification properties the source reads. -/
def is_private_ip : IpAddr → Bool
  | .v4 n =>
    v4IsPrivate n || v4In n (v4Addr 127 0 0 0) 8 || v4In n (v4Addr 169 254 0 0) 16 ||
    v4In n (v4Addr 240 0 0 0) 4 || v4In n (v4Addr 224 0 0 0) 4 || n = 0
  | .v6 n =>
    v6IsPrivate n || n = 1 || v6In n (0xfe80 * 2 ^ 112) 10 ||
    v6IsReserved n || v6In n (0xff00 * 2 ^ 112) 8 || n = 0

/-! ### Model of `utils.is_safe_url` -/

/-- Outcome of one `socket.getaddrinfo(host, port)` call: resolved address
texts, a `socket.gaierror` (the only exception the source catches), or
any other raised exception (for instance the `UnicodeError` raised when
a hostname label cannot be IDNA-encoded). -/
inductive Dns where
  | ok (addrs : List String)
  | gaiError
  | exn (msg : String)
deriving Repr, DecidableEq

/-- The localhost test of `is_safe_url` on the normalized host. -/
def isLocalhostHost (h : String) : Bool :=
  h = "localhost" || (".localhost".data.isSuffixOf h.data) ||
  (".local".data.isSuffixOf h.data) ||
  h = "localhost.localdomain" || h = "ip6-localhost" || h = "ip6-loopback"

/-- The host normalization of `is_safe_url`: `host.strip(".").lower()`. -/
def hostNorm (host : String) : String := lowerStr ⟨stripDotsL host.data⟩

/-- The effective port for the DNS check: `parsed.port or (443 if
parsed.scheme == "https" else 80)` (a port of 0 is falsy in Python). -/
def effectivePort (scheme : String) (portOpt : Option Nat) : Nat :=
  match portOpt with
  | some n => if n = 0 then (if scheme = "https" then 443 else 80) else n
  | none => if scheme = "https" then 443 else 80

/-- The resolved-address scan of `is_safe_url`: any address that parses
as an IP and is private; unparsable entries are skipped (`continue`). -/
def anyPrivateAddr (addrs : List String) : Bool :=
  addrs.any (fun a =>
    match ip_address a with
    | some ip => is_private_ip ip
    | none => false)

/-- The tail of `is_safe_url` from the `socket.getaddrinfo` call on: a
`gaierror` is caught as `dns_error`, any other exception propagates, and
the resolved addresses are scanned for private ones. -/
def dnsVerdict (res : Dns) : PyResult (Bool × Option String) :=
  match res with
  | .gaiError => .ok (false, some "dns_error")
  | .exn m => .exn m
  | .ok addrs =>
    if anyPrivateAddr addrs then .ok (false, some "private_ip_blocked")
    else .ok (true, none)

/-- The body of `utils.is_safe_url` after URL parsing succeeded. -/
def gateVerdict (dns : String → Nat → Dns) (p : UrlParts) :
    PyResult (Bool × Option String) :=
  if ¬ (p.scheme = "http" ∨ p.scheme = "https") then .ok (false, some "invalid_scheme")
  else
    match p.hostname with
    | none => .ok (false, some "missing_host")
    | some host =>
      if isLocalhostHost (hostNorm host) then .ok (false, some "localhost_blocked")
      else
        match ip_address (hostNorm host) with
        | some ip =>
          if is_private_ip ip then .ok (false, some "private_ip_blocked")
          else .ok (true, none)
        | none =>
          match pyPortVal p.portRaw with
          | .exn e => .exn e
          | .ok portOpt => dnsVerdict (dns host (effectivePort p.scheme portOpt))

/-- Model of `utils.is_safe_url`.  `dns` is the `socket.getaddrinfo`
oracle; the addresses it returns are `info[4][0]` strings.  The result is
`PyResult.exn msg` when the Python function raises uncaught, and
`PyResult.ok (allowed, reason)` otherwise. -/
def is_safe_url (dns : String → Nat → Dns) (url : String) :
    PyResult (Bool × Option String) :=
  match pyUrlparse url with
  | none => .ok (false, some "invalid_url:Invalid IPv6 URL")
  | some p => gateVerdict dns p

theorem is_safe_url_parsed (dns : String → Nat → Dns) (url : String) (p : UrlParts)
    (h : pyUrlparse url = some p) : is_safe_url dns url = gateVerdict dns p := by
  unfold is_safe_url
  rw [h]

/-! ### A kernel-computable layer of exact rational arithmetic

With Mathlib loaded, the instance-path operations `+`, `*`, `-`, `/` on
`Rat` do not reduce under `decide`, while `Rat.mkRat`, `Rat.divInt`, the
numerator/denominator projections and the casts do.  The embedding
therefore computes with the `q*` functions below; the `_eq` lemmas
identify them with the standard operations for use in proofs. -/

/-- Addition on `Rat` via `mkRat` (definitionally computable). -/
def qAdd (a b : Rat) : Rat := mkRat (a.num * b.den + b.num * a.den) (a.den * b.den)

/-- Subtraction on `Rat` via `mkRat`. -/
def qSub (a b : Rat) : Rat := mkRat (a.num * b.den - b.num * a.den) (a.den * b.den)

/-- Multiplication on `Rat` via `mkRat`. -/
def qMul (a b : Rat) : Rat := mkRat (a.num * b.num) (a.den * b.den)

/-- Division on `Rat` via `divInt` (0 when the divisor is 0, as in Lean). -/
def qDiv (a b : Rat) : Rat := Rat.divInt (a.num * b.den) (a.den * b.num)

/-- Negation on `Rat` via `divInt`. -/
def qNeg (a : Rat) : Rat := Rat.divInt (-a.num) a.den

/-- Natural power on `Rat` via `qMul`. -/
def qPowNat (a : Rat) : Nat → Rat
  | 0 => 1
  | n + 1 => qMul (qPowNat a n) a

theorem qAdd_eq (a b : Rat) : qAdd a b = a + b := (Rat.add_def' a b).symm

theorem qSub_eq (a b : Rat) : qSub a b = a - b := (Rat.sub_def' a b).symm

theorem qMul_eq (a b : Rat) : qMul a b = a * b := (Rat.mul_eq_mkRat a b).symm

theorem qDiv_eq (a b : Rat) : qDiv a b = a / b := (Rat.div_def' a b).symm

theorem qNeg_eq (a : Rat) : qNeg a = -a := by
  rw [qNeg, ← Rat.neg_divInt, Rat.num_divInt_den]

theorem qPowNat_eq (a : Rat) (n : Nat) : qPowNat a n = a ^ n := by
  induction n with
  | zero => rfl
  | succ k ih => rw [qPowNat, qMul_eq, ih, pow_succ]

/-! ### Model of `utils.clean_number` -/

/-- Model of Python `float(s)` on decimal literals: optional sign, digits
with an optional point (at least one digit overall), optional exponent.
The `inf`/`nan` words and digit-group underscores are not modelled (no
claim involves them); the value is the exact rational. -/
def pyFloat (l : List Char) : Option Rat :=
  let signSplit : List Char → Bool × List Char := fun m =>
    match m with
    | '-' :: rest => (true, rest)
    | '+' :: rest => (false, rest)
    | rest => (false, rest)
  let s := signSplit l
  let em := partChar 'e' (s.2.map Char.toLower)
  let mant := em.1
  let dot := partChar '.' mant
  if (dot.1 ++ dot.2.2) = [] ∨ ¬ (dot.1 ++ dot.2.2).all Char.isDigit then none
  else
    let base : Rat :=
      qAdd (decToNat dot.1 : Rat) (qDiv (decToNat dot.2.2 : Rat) (qPowNat 10 dot.2.2.length))
    let withExp : Option Rat :=
      if em.2.1 then
        let es := signSplit em.2.2
        if es.2 = [] ∨ ¬ es.2.all Char.isDigit then none
        else if es.1 then some (qDiv base (qPowNat 10 (decToNat es.2)))
        else some (qMul base (qPowNat 10 (decToNat es.2)))
      else some base
    withExp.map (fun v => if s.1 then qNeg v else v)

/-- Model of `utils.clean_number`: remove commas, strip whitespace, parse
as float; on failure return 0.0. -/
def clean_number (s : String) : Rat :=
  match pyFloat (pyStrip (s.data.filter (· ≠ ','))) with
  | some v => v
  | none => 0

/-! ### Integer helpers with Python semantics -/

/-- Python `int(x)` on a float: truncation toward zero. -/
def pyTrunc (q : Rat) : Int := q.num.tdiv q.den

/-- Python `range(a, b)`. -/
def pyRange (a b : Int) : List Int := (List.range (b - a).toNat).map (fun k => a + k)

/-- Fuel-driven worker for `pyRangeStep`; the fuel `(b - a).toNat` is
enough because the step is at least 1. -/
def rangeStepGo (b s : Int) : Int → Nat → List Int
  | _, 0 => []
  | a, fuel + 1 => if a < b then a :: rangeStepGo b s (a + s) fuel else []

/-- Python `range(a, b, s)` for a positive step. -/
def pyRangeStep (a b s : Int) : List Int :=
  if 1 ≤ s then rangeStepGo b s a (b - a).toNat else []

/-- Python `max(a, b)` on integers, written so that it kernel-reduces
(the Mathlib lattice `max` does not). -/
def pyMax (a b : Int) : Int := if a ≤ b then b else a

theorem pyMax_eq (a b : Int) : pyMax a b = max a b := (max_def a b).symm

/-- The source's `if time_diff == 0: time_diff = 1` (both in `measure_evm`'s
first lookback and in `measure_bitcoin`'s divisor). -/
def pyFixZero (x : Int) : Int := if x = 0 then 1 else x

/-- The source's `if actual_time_diff <= 0: actual_time_diff = 1`
(`measure_evm`'s divisor). -/
def pyFixNonpos (x : Int) : Int := if x ≤ 0 then 1 else x

/-- The source's `if time_diff <= 0: time_diff = 1` on floats
(`measure_cosmos`'s divisor). -/
def cosmosDiv (x : Rat) : Rat := if x ≤ 0 then 1 else x

/-! ### Model of `measure_tps.measure_evm`

The JSON-RPC fetches are an oracle `EvmQuery → Option EvmBlock`: `none`
models both a failed fetch and a falsy `result`; a returned block carries
the already-parsed `int(_, 16)` fields and `len(transactions)`.  The
`EvmRun` record returns the function's `(tps, status, error)` triple and
additionally exposes two intermediate values of the computation (the
sampled average and the divisor) so that the specification's statements
about them can be expressed; they are `none` on error paths. -/

/-- A block as `measure_evm` reads it. -/
structure EvmBlock where
  number : Int
  timestamp : Int
  txCount : Nat
deriving Repr, DecidableEq

/-- A `get_block_evm` query: the `'latest'` tag or a hex-encoded height. -/
inductive EvmQuery where
  | latest
  | num (n : Int)
deriving Repr, DecidableEq

/-- Result of one `measure_evm` run (return triple plus exposed intermediates). -/
structure EvmRun where
  tps : Option Rat
  status : String
  errMsg : Option String
  avgTx : Option Rat
  divisor : Option Int
deriving Repr, DecidableEq

/-- The two-attempt start-block lookup of `measure_evm`: first 100 back,
then 1 back, returning the height actually used with the block. -/
def evmStartPair (get : EvmQuery → Option EvmBlock) (latestNum : Int) :
    Option (Int × EvmBlock) :=
  match get (.num (pyMax 0 (latestNum - 100))) with
  | some b => some (pyMax 0 (latestNum - 100), b)
  | none =>
    match get (.num (pyMax 0 (latestNum - 1))) with
    | some b => some (pyMax 0 (latestNum - 1), b)
    | none => none

/-- The estimated average block time: `time_diff / (latest_num -
start_num_estimate)` when the denominator is positive, else 1. -/
def evmAvgBlockTime (timeDiff latestNum startNumEstimate : Int) : Rat :=
  if 0 < latestNum - startNumEstimate then
    qDiv (timeDiff : Rat) ((latestNum - startNumEstimate : Int) : Rat)
  else 1

/-- The block count for the 600-second target window:
`int(600 / avg_block_time)` when the average is positive, else 1. -/
def evmBlocksNeeded (avg : Rat) : Int :=
  if 0 < avg then pyTrunc (qDiv (600 : Rat) avg) else 1

/-- The sampled heights: all of them when the range holds at most
`SAMPLE_SIZE = 5` blocks, else 5 evenly stepped heights clipped to the
head. -/
def evmSampleBlocks (actualStartNum latestNum : Int) : List Int :=
  if latestNum - actualStartNum ≤ 5 then pyRange (actualStartNum + 1) (latestNum + 1)
  else
    ((List.range 5).map
      (fun i => actualStartNum + 1 + (i : Int) * (latestNum - actualStartNum).fdiv 5)).filter
      (· ≤ latestNum)

/-- Total transactions over a list of fetched blocks. -/
def txSum (l : List EvmBlock) : Nat := (l.map (·.txCount)).sum

/-- The tail of `measure_evm` once the calculated start block was
fetched: sample, average, extrapolate. -/
def evmFinish (get : EvmQuery → Option EvmBlock)
    (latestNum latestTs actualStartNum actualStartTs : Int) : EvmRun :=
  if ((evmSampleBlocks actualStartNum latestNum).filterMap (fun n => get (.num n))).length
      = 0 then
    ⟨none, "error", some "Could not sample any blocks", none, none⟩
  else
    ⟨some
        (qDiv
          (qMul
            (qDiv
              ((txSum ((evmSampleBlocks actualStartNum latestNum).filterMap
                  (fun n => get (.num n))) : Nat) : Rat)
              (((evmSampleBlocks actualStartNum latestNum).filterMap
                (fun n => get (.num n))).length : Rat))
            ((latestNum - actualStartNum : Int) : Rat))
          ((pyFixNonpos (latestTs - actualStartTs) : Int) : Rat)),
      "success", none,
      some
        (qDiv
          ((txSum ((evmSampleBlocks actualStartNum latestNum).filterMap
              (fun n => get (.num n))) : Nat) : Rat)
          (((evmSampleBlocks actualStartNum latestNum).filterMap
            (fun n => get (.num n))).length : Rat)),
      some (pyFixNonpos (latestTs - actualStartTs))⟩

/-- The part of `measure_evm` after the first start-block lookup: compute
the calculated start height, fetch it, and finish. -/
def evmTail (get : EvmQuery → Option EvmBlock)
    (latestNum latestTs startNumEstimate startTs : Int) : EvmRun :=
  match
    get (.num (pyMax 0 (latestNum -
      evmBlocksNeeded
        (evmAvgBlockTime (pyFixZero (latestTs - startTs)) latestNum startNumEstimate)))) with
  | none => ⟨none, "error", some "Could not fetch calculated start block", none, none⟩
  | some actualStartBlock =>
    evmFinish get latestNum latestTs
      (pyMax 0 (latestNum -
        evmBlocksNeeded
          (evmAvgBlockTime (pyFixZero (latestTs - startTs)) latestNum startNumEstimate)))
      actualStartBlock.timestamp

/-- Model of `measure_tps.measure_evm`. -/
def measure_evm (get : EvmQuery → Option EvmBlock) : EvmRun :=
  match get .latest with
  | none => ⟨none, "error", some "Could not fetch latest block", none, none⟩
  | some latest =>
    match evmStartPair get latest.number with
    | none => ⟨none, "error", some "Could not fetch start block", none, none⟩
    | some sp => evmTail get latest.number latest.timestamp sp.1 sp.2.timestamp

/-! ### Model of `measure_tps.measure_bitcoin`

The `getblockhash`/`getblock` pair at one height is collapsed into one
oracle `blockAt`; `none` models any raised exception there (the source's
`except` turns it into a `status=error` result with `str(e)` as detail,
modelled by the fixed text `"exception"`). -/

/-- A Bitcoin block as the sampler reads it: `time` and `len(tx)`. -/
structure BtcBlock where
  time : Int
  txCount : Nat
deriving Repr, DecidableEq

/-- The Bitcoin RPC surface used by `measure_bitcoin`. -/
structure BtcChain where
  info : Option Int
  blockAt : Int → Option BtcBlock

/-- Result of one `measure_bitcoin` run (return triple plus the divisor). -/
structure BtcRun where
  tps : Option Rat
  status : String
  errMsg : Option String
  divisor : Option Int
deriving Repr, DecidableEq

/-- The heights sampled by the `for i in range(3)` loop, which breaks at
the first negative height. -/
def btcSampleHeights (h : Int) : List Int :=
  (([0, 1, 2] : List Int).map (fun i => h - i)).takeWhile (fun x => 0 ≤ x)

/-- Total transactions over a list of fetched Bitcoin blocks. -/
def txSumBtc (l : List BtcBlock) : Nat := (l.map (·.txCount)).sum

/-- Model of `measure_tps.measure_bitcoin`. -/
def measure_bitcoin (bc : BtcChain) : BtcRun :=
  match bc.info with
  | none => ⟨none, "error", some "exception", none⟩
  | some latestHeight =>
    match bc.blockAt latestHeight with
    | none => ⟨none, "error", some "exception", none⟩
    | some latestBlock =>
      match (btcSampleHeights latestHeight).mapM bc.blockAt with
      | none => ⟨none, "error", some "exception", none⟩
      | some blks =>
        match bc.blockAt (pyMax 0 (latestHeight - 3)) with
        | none => ⟨none, "error", some "exception", none⟩
        | some oldest =>
          let d := pyFixZero (latestBlock.time - oldest.time)
          ⟨some (qDiv ((txSumBtc blks : Nat) : Rat) ((d : Int) : Rat)),
            "success", none, some d⟩

/-! ### Model of `measure_non_evm.measure_cosmos`

The two REST URL variants for the latest block and for a block at a
height carry the same data and are collapsed into one oracle each;
`none` for a sampled height models the `except: pass` skip, `none` for
the latest/start block the corresponding error return.  Timestamps are
the `mktime(strptime(...))` seconds. -/

/-- A Cosmos block as the sampler reads it. -/
structure CosmosBlock where
  height : Int
  time : Rat
  txCount : Nat
deriving Repr, DecidableEq

/-- The Cosmos REST surface used by `measure_cosmos`. -/
structure CosmosChain where
  latest : Option CosmosBlock
  atHeight : Int → Option CosmosBlock

/-- Result of one `measure_cosmos` run (return tuple plus the divisor). -/
structure CosmosRun where
  tps : Option Rat
  status : String
  errMsg : Option String
  totalTxCount : Option Rat
  divisor : Option Rat
deriving Repr, DecidableEq

/-- The sampled heights of `measure_cosmos`:
`range(start, latest + 1, step)[:10]` with `step = max(1, range // 10)`. -/
def cosmosSampleHeights (startHeight latestHeight : Int) : List Int :=
  (pyRangeStep startHeight (latestHeight + 1)
    (pyMax 1 ((latestHeight - startHeight).fdiv 10))).take 10

/-- Total transactions over a list of fetched Cosmos blocks. -/
def txSumCosmos (l : List CosmosBlock) : Nat := (l.map (·.txCount)).sum

/-- The tail of `measure_cosmos` once the latest and start blocks were
fetched. -/
def cosmosFinish (c : CosmosChain) (lb sb : CosmosBlock) : CosmosRun :=
  if ((cosmosSampleHeights (pyMax 1 (lb.height - 50)) lb.height).filterMap
      c.atHeight).length = 0 then
    ⟨none, "error", some "No valid samples", none, none⟩
  else
    ⟨some
        (qDiv
          (qMul
            (qDiv
              ((txSumCosmos ((cosmosSampleHeights (pyMax 1 (lb.height - 50)) lb.height).filterMap
                  c.atHeight) : Nat) : Rat)
              (((cosmosSampleHeights (pyMax 1 (lb.height - 50)) lb.height).filterMap
                c.atHeight).length : Rat))
            ((lb.height - pyMax 1 (lb.height - 50) : Int) : Rat))
          (cosmosDiv (qSub lb.time sb.time))),
      "success", none,
      some
        (qMul ((lb.height : Int) : Rat)
          (qDiv
            ((txSumCosmos ((cosmosSampleHeights (pyMax 1 (lb.height - 50)) lb.height).filterMap
                c.atHeight) : Nat) : Rat)
            (((cosmosSampleHeights (pyMax 1 (lb.height - 50)) lb.height).filterMap
              c.atHeight).length : Rat))),
      some (cosmosDiv (qSub lb.time sb.time))⟩

/-- Model of `measure_non_evm.measure_cosmos`. -/
def measure_cosmos (c : CosmosChain) : CosmosRun :=
  match c.latest with
  | none => ⟨none, "error", some "Could not fetch latest block", none, none⟩
  | some lb =>
    match c.atHeight (pyMax 1 (lb.height - 50)) with
    | none => ⟨none, "error", some "Could not fetch start block", none, none⟩
    | some sb => cosmosFinish c lb sb

/-- The synthetic account-model chain of the specification's example:
head height 1000, one-second blocks with the timestamp equal to the
height, 10 transactions in every block. -/
def synthEvmChain : EvmQuery → Option EvmBlock
  | .latest => some ⟨1000, 1000, 10⟩
  | .num n => if 0 ≤ n ∧ n ≤ 1000 then some ⟨n, n, 10⟩ else none

/-- A Bitcoin chain whose block 3 back claims a clock-skewed future
timestamp: height 10, two transactions per block, block 7 at time 2000
while the others are at time 1000. -/
def btcSkewChain : BtcChain :=
  ⟨some 10, fun n => some ⟨if n = 7 then 2000 else 1000, 2⟩⟩

/-! ### Model of `measure_tps.measure_chain_dispatcher` -/

/-- Does the first list start with the second? (Python `startswith`.) -/
def leadsWith : List Char → List Char → Bool
  | _, [] => true
  | [], _ :: _ => false
  | a :: as, b :: bs => a = b && leadsWith as bs

/-- Python substring containment (`needle in hay`). -/
def containsSub (hay needle : List Char) : Bool :=
  match hay with
  | [] => needle.isEmpty
  | _ :: rest => leadsWith hay needle || containsSub rest needle

/-- The tuple `measure_chain_dispatcher` returns for one chain. -/
structure DispatchResult where
  chainId : String
  chainName : String
  rpcUrl : String
  tps : Option Rat
  status : String
  errMsg : Option String
deriving Repr, DecidableEq

/-- Model of `measure_tps.measure_chain_dispatcher`.  The three family
samplers are abstract parameters returning the source's
`(tps, status, error)` triple; `chainInfo` is the `(name, id, rpc)`
tuple.  An empty `rpcUrl` models a falsy `rpc_url`. -/
def measure_chain_dispatcher
    (mSolana mBitcoin mEvm : String → Option Rat × String × Option String)
    (chainInfo : String × String × String) : DispatchResult :=
  let chainName := chainInfo.1
  let chainId := chainInfo.2.1
  let rpcUrl := chainInfo.2.2
  if rpcUrl = "" ∨ rpcUrl = "N/A" then
    ⟨chainId, chainName, rpcUrl, none, "skipped_no_rpc", some "No RPC URL"⟩
  else if containsSub (lowerStr chainName).data "solana".data then
    let r := mSolana rpcUrl
    ⟨chainId, chainName, rpcUrl, r.1, r.2.1, r.2.2⟩
  else if lowerStr chainName = "bitcoin" then
    let r := mBitcoin rpcUrl
    ⟨chainId, chainName, rpcUrl, r.1, r.2.1, r.2.2⟩
  else
    let r := mEvm rpcUrl
    ⟨chainId, chainName, rpcUrl, r.1, r.2.1, r.2.2⟩

/-! ### Model of `measure_force_evm.process_chain_failover` -/

/-- Outcome of one `measure_force_evm.measure_evm` call as the failover
loop observes it: the source returns a 4-tuple whose second component is
`"success"`, or a triple whose second component is `"error"` with a
detail string. -/
inductive ForceEvmRes where
  | success (tps total : Rat)
  | failure (detail : String)
deriving Repr, DecidableEq

/-- The tuple `process_chain_failover` returns for one chain. -/
structure FailoverResult where
  chainId : String
  chainName : String
  endpointUsed : Option String
  tps : Option Rat
  status : String
  errMsg : Option String
  totalTxCount : Rat
deriving Repr, DecidableEq

/-- One entry of the downloaded `chains.json` list, restricted to the
fields the failover reads. -/
structure ChainItem where
  name : String
  chainId : String
  rpc : List String
deriving Repr, DecidableEq

/-- The candidate filter: drop templated (`$\x7b`) and websocket URLs. -/
def rpcFilterOk (r : String) : Bool :=
  ¬ containsSub r.data ['$', '\x7b'] ∧ ¬ containsSub r.data "wss://".data

/-- The `for rpc in candidate_rpcs` loop: first success wins, in order. -/
def failoverLoop (m : String → ForceEvmRes) : List String → Option (String × Rat × Rat)
  | [] => none
  | r :: rest =>
    match m r with
    | .success t c => some (r, t, c)
    | .failure _ => failoverLoop m rest

/-- Model of `measure_force_evm.process_chain_failover`, with the adapter
`measure_evm` abstracted as `m`. -/
def process_chain_failover (m : String → ForceEvmRes) (item : ChainItem) : FailoverResult :=
  let cands := item.rpc.filter rpcFilterOk
  match cands with
  | [] => ⟨item.chainId, item.name, none, none, "skipped_no_rpc", some "No valid RPCs", 0⟩
  | c0 :: _ =>
    match failoverLoop m cands with
    | some rtc => ⟨item.chainId, item.name, some rtc.1, some rtc.2.1, "success", none, rtc.2.2⟩
    | none => ⟨item.chainId, item.name, some c0, none, "error", some "All RPCs failed", 0⟩

/-! ### Outbound-network traces

For the temporal claim about gate-before-fetch ordering, the relevant
functions are abstracted to the sequence of outbound-network events they
perform. -/

/-- An outbound-network event: a gate validation of a URL (with its
verdict) or an actual network fetch of a URL. -/
inductive NetEvent where
  | validate (url : String) (allowed : Bool)
  | fetch (url : String)
deriving Repr, DecidableEq

/-- The outbound-network trace of `measure_tps.make_rpc_request`: it
builds the request and opens the URL directly; no gate validation occurs
anywhere in the function. -/
def make_rpc_request_events (url : String) : List NetEvent := [.fetch url]

/-- The URL normalization of `scrape_chain`: prepend `https://` when the
value does not start with `http`. -/
def normalizeExplorerUrl (explorerUrl : String) : String :=
  if ¬ leadsWith explorerUrl.data "http".data then "https://" ++ explorerUrl
  else explorerUrl

/-- The outbound-network trace of `scrape_explorer.scrape_chain` up to
the page fetch; `verdict` abstracts the module's `is_safe_url`.  An empty
`explorerUrl` models a falsy one (early return, no events). -/
def scrape_chain_events (verdict : String → Bool × Option String) (explorerUrl : String) :
    List NetEvent :=
  if explorerUrl = "" then []
  else if (verdict (normalizeExplorerUrl explorerUrl)).1 then
    [.validate (normalizeExplorerUrl explorerUrl) true,
      .fetch (normalizeExplorerUrl explorerUrl)]
  else [.validate (normalizeExplorerUrl explorerUrl) false]

/-- A trace is gated (from a set of already-approved URLs) when every
fetch is preceded by a validation of the same URL that allowed it. -/
def gatedFrom (approved : List String) : List NetEvent → Bool
  | [] => true
  | .validate u true :: rest => gatedFrom (u :: approved) rest
  | .validate _ false :: rest => gatedFrom approved rest
  | .fetch u :: rest => approved.contains u && gatedFrom approved rest

/-- A trace is gated when every fetch follows an allowing validation. -/
def gatedTrace (tr : List NetEvent) : Bool := gatedFrom [] tr

/-! ### Model of the persisted `chain_metrics` row and the upsert

The schema is the one `measure_gap_v2.init_db` settles on (the widest:
it includes the curated columns `is_dead DEFAULT 0`, `explorer_url`,
`x_handle` that other scripts maintain via `UPDATE`).  SQL NULL is
`none`.  SQLite `INSERT OR REPLACE` resolves a primary-key conflict by
deleting the old row and inserting the new one, so columns absent from
the statement's column list take their declared defaults. -/

/-- One persisted `chain_metrics` row (all columns except the key). -/
structure ChainMetricsRow where
  chainName : Option String
  rpcUrl : Option String
  tps10min : Option Rat
  lastUpdatedAt : Option Rat
  status : Option String
  errorMessage : Option String
  totalTxCount : Option Rat
  healthStatus : Option String
  isDead : Option Int
  explorerUrl : Option String
  xHandle : Option String
deriving Repr, DecidableEq

/-- A `chain_metrics` table keyed by `chain_id`. -/
def MetricsTable := String → Option ChainMetricsRow

/-- SQLite `INSERT OR REPLACE` with the eight-column list used by
`measure_tps.main` (`chain_id, chain_name, rpc_url, tps_10min,
last_updated_at, status, error_message, health_status`): the fresh row
has the unlisted columns at their defaults — `total_tx_count`,
`explorer_url`, `x_handle` NULL and `is_dead` 0. -/
def insertOrReplaceMain (tbl : MetricsTable) (chainId : String)
    (chainName rpcUrl : Option String) (tps updatedAt : Option Rat)
    (status errMsg health : Option String) : MetricsTable :=
  fun k =>
    if k = chainId then
      some
        { chainName := chainName, rpcUrl := rpcUrl, tps10min := tps,
          lastUpdatedAt := updatedAt, status := status, errorMessage := errMsg,
          totalTxCount := none, healthStatus := health,
          isDead := some 0, explorerUrl := none, xHandle := none }
    else tbl k

/-- The write `measure_tps.main` performs for one completed future:
`health = "Live" if status == 'success' else error`, then the
INSERT OR REPLACE above. -/
def mainUpsert (tbl : MetricsTable) (chainId chainName rpcUrl : String)
    (tps : Option Rat) (now : Rat) (status : String) (errMsg : Option String) :
    MetricsTable :=
  insertOrReplaceMain tbl chainId (some chainName) (some rpcUrl) tps (some now)
    (some status) errMsg (if status = "success" then some "Live" else errMsg)

/-- A pre-existing row with curated fields set, for the upsert example. -/
def curatedRow : ChainMetricsRow :=
  { chainName := some "Ethereum", rpcUrl := some "https://old-rpc.example",
    tps10min := some 5, lastUpdatedAt := some 100, status := some "error",
    errorMessage := some "timeout", totalTxCount := some 2000000,
    healthStatus := some "timeout", isDead := some 1,
    explorerUrl := some "https://etherscan.io", xHandle := some "@ethereum" }

/-- A one-row table holding `curatedRow` under chain id "1". -/
def curatedTable : MetricsTable := fun k => if k = "1" then some curatedRow else none

/-! ## Claim theorems -/

/-- C9: `clean_number` maps the string "1,234.56" to 1234.56, the string
"N/A" to 0.0, and the empty string "" to 0.0. -/
theorem C9_clean_number_examples :
    clean_number "1,234.56" = 1234.56 ∧ clean_number "N/A" = 0 ∧ clean_number "" = 0 := by
  refine ⟨?_, by decide, by decide⟩
  have h : clean_number "1,234.56" = Rat.divInt 30864 25 := by decide
  rw [h, Rat.divInt_eq_div]
  norm_num

/-- C7: on the synthetic account-model chain (head height 1000 at
timestamp 1000, block 900 at timestamp 900, sampled blocks with 10
transactions each) the account-model sampler computes an average of 10
transactions per block and a TPS estimate of 10.0 with status success. -/
theorem C7_synthetic_account_chain :
    measure_evm synthEvmChain =
      ⟨some 10, "success", none, some 10, some 600⟩ := by decide

/-- C8 counterexample: for a target with no candidate endpoint the
dispatcher records status "skipped_no_rpc" with detail "No RPC URL", not
status "skipped" with detail "no_candidate_endpoint" as claimed. -/
theorem C8_counterexample :
    (measure_chain_dispatcher (fun _ => (none, "s", none)) (fun _ => (none, "s", none))
        (fun _ => (none, "s", none)) ("Foo", "42", "N/A")).status ≠ "skipped" ∧
    (measure_chain_dispatcher (fun _ => (none, "s", none)) (fun _ => (none, "s", none))
        (fun _ => (none, "s", none)) ("Foo", "42", "N/A")).errMsg ≠
      some "no_candidate_endpoint" := by decide

/-- C8 (amended): a target with a falsy or "N/A" RPC URL is recorded by
the dispatcher as status "skipped_no_rpc" with detail "No RPC URL", and a
chains.json entry whose filtered candidate list is empty is recorded by
the failover as "skipped_no_rpc" with detail "No valid RPCs"; in both
cases the result does not depend on the adapters (no adapter is
invoked). -/
theorem C8_no_candidate_skipped :
    (∀ (m1 m2 m3 n1 n2 n3 : String → Option Rat × String × Option String)
      (name cid rpc : String), rpc = "" ∨ rpc = "N/A" →
      measure_chain_dispatcher m1 m2 m3 (name, cid, rpc) =
        ⟨cid, name, rpc, none, "skipped_no_rpc", some "No RPC URL"⟩ ∧
      measure_chain_dispatcher m1 m2 m3 (name, cid, rpc) =
        measure_chain_dispatcher n1 n2 n3 (name, cid, rpc)) ∧
    (∀ (m n : String → ForceEvmRes) (item : ChainItem),
      item.rpc.filter rpcFilterOk = [] →
      process_chain_failover m item =
        ⟨item.chainId, item.name, none, none, "skipped_no_rpc", some "No valid RPCs", 0⟩ ∧
      process_chain_failover m item = process_chain_failover n item) := by
  constructor
  · intro m1 m2 m3 n1 n2 n3 name cid rpc h
    constructor
    · unfold measure_chain_dispatcher
      rw [if_pos h]
    · unfold measure_chain_dispatcher
      rw [if_pos h, if_pos h]
  · intro m n item h
    constructor
    · unfold process_chain_failover
      rw [h]
    · unfold process_chain_failover
      rw [h]

/-- C8 witness: the skip behavior evaluated at a concrete target. -/
theorem C8_no_candidate_skipped_witness :
    measure_chain_dispatcher (fun _ => (none, "a", none)) (fun _ => (none, "b", none))
      (fun _ => (none, "c", none)) ("Foo", "42", "") =
      ⟨"42", "Foo", "", none, "skipped_no_rpc", some "No RPC URL"⟩ :=
  (C8_no_candidate_skipped.1 _ _ _ (fun _ => (none, "a", none)) (fun _ => (none, "b", none))
    (fun _ => (none, "c", none)) "Foo" "42" "" (Or.inl rfl)).1

/-- Whether an adapter outcome is a failure. -/
def isFailure : ForceEvmRes → Bool
  | .failure _ => true
  | .success _ _ => false

theorem failoverLoop_all_fail (m : String → ForceEvmRes) :
    ∀ l : List String, (∀ r ∈ l, isFailure (m r)) → failoverLoop m l = none := by
  intro l
  induction l with
  | nil => intro _; rfl
  | cons a rest ih =>
    intro h
    have ha := h a (List.mem_cons_self a rest)
    unfold failoverLoop
    cases hm : m a with
    | success t c => rw [hm] at ha; simp [isFailure] at ha
    | failure d => exact ih (fun r hr => h r (List.mem_cons_of_mem a hr))

theorem failoverLoop_first_success (m : String → ForceEvmRes) :
    ∀ (l : List String) (i : Nat) (h : i < l.length) (t c : Rat),
      (∀ j (hj : j < i), isFailure (m (l.get ⟨j, Nat.lt_trans hj h⟩))) →
      m (l.get ⟨i, h⟩) = .success t c →
      failoverLoop m l = some (l.get ⟨i, h⟩, t, c) := by
  intro l
  induction l with
  | nil => intro i h; exact absurd h (Nat.not_lt_zero i)
  | cons a rest ih =>
    intro i h t c hfail hsucc
    cases i with
    | zero =>
      unfold failoverLoop
      rw [show (a :: rest).get ⟨0, h⟩ = a from rfl] at hsucc
      rw [hsucc]
      rfl
    | succ k =>
      have ha : isFailure (m a) := by
        have h0 := hfail 0 (Nat.succ_pos k)
        simpa using h0
      unfold failoverLoop
      cases hm : m a with
      | success t1 c1 => rw [hm] at ha; simp [isFailure] at ha
      | failure d =>
        have hlen : k < rest.length := Nat.lt_of_succ_lt_succ h
        have hres := ih k hlen t c
          (fun j hj => by
            have hz := hfail (j + 1) (Nat.succ_lt_succ hj)
            simpa using hz)
          (by simpa using hsucc)
        simpa using hres

theorem process_chain_failover_eq (m : String → ForceEvmRes) (item : ChainItem)
    (c0 : String) (cs : List String) (hc : item.rpc.filter rpcFilterOk = c0 :: cs) :
    process_chain_failover m item =
      match failoverLoop m (c0 :: cs) with
      | some rtc =>
        ⟨item.chainId, item.name, some rtc.1, some rtc.2.1, "success", none, rtc.2.2⟩
      | none =>
        ⟨item.chainId, item.name, some c0, none, "error", some "All RPCs failed", 0⟩ := by
  unfold process_chain_failover
  rw [hc]

/-- C4 counterexample: when all three candidates fail with distinct
reasons, the failover's result carries the first candidate as
`endpoint_used` (not absent) and the constant detail "All RPCs failed"
(not the third endpoint's failure reason). -/
theorem C4_counterexample :
    (process_chain_failover (fun r => .failure ("fail_" ++ r))
        ⟨"Test", "42", ["a", "b", "c"]⟩).endpointUsed ≠ none ∧
    (process_chain_failover (fun r => .failure ("fail_" ++ r))
        ⟨"Test", "42", ["a", "b", "c"]⟩).errMsg ≠ some "fail_c" := by decide

/-- C4 (amended): the failover tries the filtered candidates strictly in
registry order and stops at the first success; when every candidate
fails it returns status "error" with `endpoint_used` set to the first
candidate and `error_detail` the constant "All RPCs failed". -/
theorem C4_failover_order :
    ∀ (m : String → ForceEvmRes) (item : ChainItem),
      (∀ (i : Nat) (h : i < (item.rpc.filter rpcFilterOk).length) (t c : Rat),
        (∀ j (hj : j < i),
          isFailure (m ((item.rpc.filter rpcFilterOk).get ⟨j, Nat.lt_trans hj h⟩))) →
        m ((item.rpc.filter rpcFilterOk).get ⟨i, h⟩) = .success t c →
        process_chain_failover m item =
          ⟨item.chainId, item.name, some ((item.rpc.filter rpcFilterOk).get ⟨i, h⟩),
            some t, "success", none, c⟩) ∧
      ((item.rpc.filter rpcFilterOk) ≠ [] →
        (∀ r ∈ item.rpc.filter rpcFilterOk, isFailure (m r)) →
        process_chain_failover m item =
          ⟨item.chainId, item.name, some ((item.rpc.filter rpcFilterOk).headD ""),
            none, "error", some "All RPCs failed", 0⟩) := by
  intro m item
  constructor
  · intro i
    generalize hc : item.rpc.filter rpcFilterOk = cands
    intro h t c hfail hsucc
    cases cands with
    | nil => exact absurd h (by simp)
    | cons c0 cs =>
      have hloop := failoverLoop_first_success m (c0 :: cs) i h t c hfail hsucc
      rw [process_chain_failover_eq m item c0 cs hc, hloop]
  · generalize hc : item.rpc.filter rpcFilterOk = cands
    intro hne hall
    cases cands with
    | nil => exact absurd rfl hne
    | cons c0 cs =>
      have hloop := failoverLoop_all_fail m (c0 :: cs) hall
      rw [process_chain_failover_eq m item c0 cs hc, hloop]
      rfl

/-- C4 witness: the all-fail branch evaluated at a concrete target. -/
theorem C4_failover_order_witness :
    process_chain_failover (fun r => .failure ("e_" ++ r)) ⟨"N", "9", ["u", "v"]⟩ =
      ⟨"9", "N", some "u", none, "error", some "All RPCs failed", 0⟩ :=
  (C4_failover_order (fun r => .failure ("e_" ++ r)) ⟨"N", "9", ["u", "v"]⟩).2
    (by decide) (by decide)

/-- C2 counterexample: the RPC request helper of the standard sampler run
fetches its URL with no prior gate validation, on a URL the gate rejects
(127.0.0.1 is a private literal). -/
theorem C2_counterexample :
    gatedTrace (make_rpc_request_events "http://127.0.0.1/x") = false ∧
    is_safe_url (fun _ _ => .gaiError) "http://127.0.0.1/x" =
      .ok (false, some "private_ip_blocked") := by decide

/-- C2 (amended): the explorer scraper fetches a page only after its gate
validation allowed the URL (its trace is always gated), but
`make_rpc_request` performs the network call directly — its trace is a
bare fetch with no validation event. -/
theorem C2_scrape_gated_rpc_direct :
    (∀ (verdict : String → Bool × Option String) (u : String),
      gatedTrace (scrape_chain_events verdict u) = true) ∧
    (∀ u : String, make_rpc_request_events u = [.fetch u]) := by
  constructor
  · intro verdict u
    unfold scrape_chain_events gatedTrace
    split
    · rfl
    · split
      · simp [gatedFrom]
      · simp [gatedFrom]
  · intro u
    rfl

/-- C5: the upsert in `measure_tps.main` is an SQLite INSERT OR REPLACE
over eight columns, so on a key conflict the pre-existing row is deleted
and the curated columns are reset to their defaults: `explorer_url` and
`x_handle` become NULL and `is_dead` becomes 0, instead of being left
unchanged as the claim requires. -/
theorem C5_replace_wipes_curated :
    mainUpsert curatedTable "1" "Ethereum" "https://rpc.example"
        (some 12) 999 "success" none "1" =
      some
        { chainName := some "Ethereum", rpcUrl := some "https://rpc.example",
          tps10min := some 12, lastUpdatedAt := some 999, status := some "success",
          errorMessage := none, totalTxCount := none, healthStatus := some "Live",
          isDead := some 0, explorerUrl := none, xHandle := none } ∧
    curatedRow.explorerUrl = some "https://etherscan.io" ∧
    curatedRow.xHandle = some "@ethereum" ∧
    curatedRow.isDead = some 1 ∧
    curatedTable "1" = some curatedRow := by decide

/-! ### Support lemmas for the sampler nonnegativity claims -/

theorem pyFixNonpos_ge_one (x : Int) : 1 ≤ pyFixNonpos x := by
  unfold pyFixNonpos
  split <;> omega

theorem pyFixZero_ge_one (x : Int) (h : 0 ≤ x) : 1 ≤ pyFixZero x := by
  unfold pyFixZero
  split <;> omega

theorem cosmosDiv_pos (x : Rat) : 0 < cosmosDiv x := by
  unfold cosmosDiv
  split
  · exact one_pos
  · next h => exact lt_of_not_le h

theorem qDiv_nonneg {a b : Rat} (ha : 0 ≤ a) (hb : 0 ≤ b) : 0 ≤ qDiv a b := by
  rw [qDiv_eq]
  exact div_nonneg ha hb

theorem qMul_nonneg {a b : Rat} (ha : 0 ≤ a) (hb : 0 ≤ b) : 0 ≤ qMul a b := by
  rw [qMul_eq]
  exact mul_nonneg ha hb

theorem pyRange_nonempty {a b : Int} (h : pyRange a b ≠ []) : a < b := by
  by_contra hab
  apply h
  unfold pyRange
  have hz : (b - a).toNat = 0 := by omega
  rw [hz]
  rfl

theorem rangeStepGo_nonempty {b s : Int} (fuel : Nat) (a : Int)
    (h : rangeStepGo b s a fuel ≠ []) : a < b := by
  cases fuel with
  | zero => exact absurd rfl h
  | succ k =>
    unfold rangeStepGo at h
    by_contra hab
    rw [if_neg hab] at h
    exact h rfl

theorem pyRangeStep_nonempty {a b s : Int} (h : pyRangeStep a b s ≠ []) : a < b := by
  unfold pyRangeStep at h
  split at h
  · exact rangeStepGo_nonempty _ a h
  · exact absurd rfl h

theorem filterMap_src_ne_nil {α β : Type} {f : α → Option β} {l : List α}
    (h : l.filterMap f ≠ []) : l ≠ [] := by
  intro he
  subst he
  exact h rfl

theorem take_src_ne_nil {α : Type} {n : Nat} {l : List α} (h : l.take n ≠ []) : l ≠ [] := by
  intro he
  subst he
  simp at h

theorem length_ne_zero_ne_nil {α : Type} {l : List α} (h : ¬ l.length = 0) : l ≠ [] := by
  intro he
  subst he
  exact h rfl

theorem evmSampleBlocks_range {asn ln : Int}
    (h : evmSampleBlocks asn ln ≠ []) : 0 ≤ ln - asn := by
  unfold evmSampleBlocks at h
  split at h
  · have := pyRange_nonempty h
    omega
  · next hgt => omega

theorem pyMax_one_le (x : Int) : 1 ≤ pyMax 1 x := by
  unfold pyMax
  split <;> omega

theorem pyMax_zero_le_self (x y : Int) (h : 0 ≤ y) : pyMax 0 (y - x) ≤ y ∨ x ≤ 0 := by
  unfold pyMax
  split <;> omega

theorem cosmosSample_bounds {sh lh : Int}
    (h : cosmosSampleHeights sh lh ≠ []) : sh ≤ lh := by
  unfold cosmosSampleHeights at h
  have h2 := take_src_ne_nil h
  have h3 := pyRangeStep_nonempty h2
  omega

/-! ### Success-path lemmas for the account-model sampler -/

theorem evmFinish_props (get : EvmQuery → Option EvmBlock) (ln lt asn ats : Int) :
    ((evmFinish get ln lt asn ats).status = "success" →
      (evmFinish get ln lt asn ats).tps ≠ none ∧
      ∀ q, (evmFinish get ln lt asn ats).tps = some q → 0 ≤ q) ∧
    (∀ d, (evmFinish get ln lt asn ats).divisor = some d → 1 ≤ d) := by
  unfold evmFinish
  split
  · constructor
    · intro h
      simp at h
    · intro d hd
      simp at hd
  · next hlen =>
    have hr : 0 ≤ ln - asn :=
      evmSampleBlocks_range (filterMap_src_ne_nil (length_ne_zero_ne_nil hlen))
    constructor
    · intro _
      constructor
      · simp
      · intro q hq
        have hq2 : some (qDiv (qMul (qDiv
            ((txSum ((evmSampleBlocks asn ln).filterMap (fun n => get (.num n))) : Nat) : Rat)
            (((evmSampleBlocks asn ln).filterMap (fun n => get (.num n))).length : Rat))
            ((ln - asn : Int) : Rat)) ((pyFixNonpos (lt - ats) : Int) : Rat)) = some q := hq
        rw [← Option.some.injEq _ q |>.mp hq2]
        exact qDiv_nonneg
          (qMul_nonneg (qDiv_nonneg (Nat.cast_nonneg _) (Nat.cast_nonneg _))
            (Int.cast_nonneg.mpr hr))
          (Int.cast_nonneg.mpr (by have := pyFixNonpos_ge_one (lt - ats); omega))
    · intro d hd
      have hd2 : some (pyFixNonpos (lt - ats)) = some d := hd
      rw [← Option.some.injEq _ d |>.mp hd2]
      exact pyFixNonpos_ge_one _

theorem evmTail_shape (get : EvmQuery → Option EvmBlock) (ln lt sne sts : Int) :
    (evmTail get ln lt sne sts =
      ⟨none, "error", some "Could not fetch calculated start block", none, none⟩) ∨
    ∃ asn ats, evmTail get ln lt sne sts = evmFinish get ln lt asn ats := by
  unfold evmTail
  split
  · exact Or.inl rfl
  · exact Or.inr ⟨_, _, rfl⟩

theorem measure_evm_shape (get : EvmQuery → Option EvmBlock) :
    ((measure_evm get).status = "error" ∧ (measure_evm get).tps = none ∧
      (measure_evm get).divisor = none) ∨
    ∃ ln lt asn ats, measure_evm get = evmFinish get ln lt asn ats := by
  unfold measure_evm
  split
  · exact Or.inl ⟨rfl, rfl, rfl⟩
  · split
    · exact Or.inl ⟨rfl, rfl, rfl⟩
    · rcases evmTail_shape get _ _ _ _ with h | ⟨asn, ats, h⟩
      · rw [h]
        exact Or.inl ⟨rfl, rfl, rfl⟩
      · rw [h]
        exact Or.inr ⟨_, _, _, _, rfl⟩

/-! ### Success-path lemmas for the Cosmos and Bitcoin samplers -/

theorem cosmosFinish_props (c : CosmosChain) (lb sb : CosmosBlock) :
    ((cosmosFinish c lb sb).status = "success" →
      ((∀ q, (cosmosFinish c lb sb).tps = some q → 0 ≤ q) ∧
       (∀ q, (cosmosFinish c lb sb).totalTxCount = some q → 0 ≤ q))) ∧
    (∀ q, (cosmosFinish c lb sb).divisor = some q → 0 < q) := by
  unfold cosmosFinish
  split
  · constructor
    · intro h
      simp at h
    · intro q hq
      simp at hq
  · next hlen =>
    have hb : pyMax 1 (lb.height - 50) ≤ lb.height :=
      cosmosSample_bounds (filterMap_src_ne_nil (length_ne_zero_ne_nil hlen))
    have hh : 0 ≤ lb.height := by
      have := pyMax_one_le (lb.height - 50)
      omega
    constructor
    · intro _
      constructor
      · intro q hq
        have hq2 : some (qDiv (qMul (qDiv
            ((txSumCosmos ((cosmosSampleHeights (pyMax 1 (lb.height - 50)) lb.height).filterMap
              c.atHeight) : Nat) : Rat)
            (((cosmosSampleHeights (pyMax 1 (lb.height - 50)) lb.height).filterMap
              c.atHeight).length : Rat))
            ((lb.height - pyMax 1 (lb.height - 50) : Int) : Rat))
            (cosmosDiv (qSub lb.time sb.time))) = some q := hq
        rw [← Option.some.injEq _ q |>.mp hq2]
        exact qDiv_nonneg
          (qMul_nonneg (qDiv_nonneg (Nat.cast_nonneg _) (Nat.cast_nonneg _))
            (Int.cast_nonneg.mpr (by omega)))
          (le_of_lt (cosmosDiv_pos _))
      · intro q hq
        have hq2 : some (qMul ((lb.height : Int) : Rat) (qDiv
            ((txSumCosmos ((cosmosSampleHeights (pyMax 1 (lb.height - 50)) lb.height).filterMap
              c.atHeight) : Nat) : Rat)
            (((cosmosSampleHeights (pyMax 1 (lb.height - 50)) lb.height).filterMap
              c.atHeight).length : Rat))) = some q := hq
        rw [← Option.some.injEq _ q |>.mp hq2]
        exact qMul_nonneg (Int.cast_nonneg.mpr hh)
          (qDiv_nonneg (Nat.cast_nonneg _) (Nat.cast_nonneg _))
    · intro q hq
      have hq2 : some (cosmosDiv (qSub lb.time sb.time)) = some q := hq
      rw [← Option.some.injEq _ q |>.mp hq2]
      exact cosmosDiv_pos _

theorem measure_cosmos_shape (c : CosmosChain) :
    ((measure_cosmos c).status = "error" ∧ (measure_cosmos c).tps = none ∧
      (measure_cosmos c).totalTxCount = none ∧ (measure_cosmos c).divisor = none) ∨
    ∃ lb sb, measure_cosmos c = cosmosFinish c lb sb := by
  unfold measure_cosmos
  split
  · exact Or.inl ⟨rfl, rfl, rfl, rfl⟩
  · split
    · exact Or.inl ⟨rfl, rfl, rfl, rfl⟩
    · exact Or.inr ⟨_, _, rfl⟩

theorem measure_bitcoin_shape (bc : BtcChain) :
    ((measure_bitcoin bc).status = "error" ∧ (measure_bitcoin bc).tps = none ∧
      (measure_bitcoin bc).divisor = none) ∨
    ∃ hgt lb blks ob,
      bc.info = some hgt ∧ bc.blockAt hgt = some lb ∧
      (btcSampleHeights hgt).mapM bc.blockAt = some blks ∧
      bc.blockAt (pyMax 0 (hgt - 3)) = some ob ∧
      measure_bitcoin bc =
        ⟨some (qDiv ((txSumBtc blks : Nat) : Rat)
            ((pyFixZero (lb.time - ob.time) : Int) : Rat)),
          "success", none, some (pyFixZero (lb.time - ob.time))⟩ := by
  unfold measure_bitcoin
  repeat' split
  all_goals
    first
      | exact Or.inl ⟨rfl, rfl, rfl⟩
      | exact Or.inr ⟨_, _, _, _, by assumption, by assumption, by assumption,
          by assumption, rfl⟩

/-- C3 counterexample: a clock-skewed Bitcoin chain (block 3 back claims
a future timestamp) produces a status "success" measurement with a
strictly negative TPS estimate. -/
theorem C3_counterexample :
    (measure_bitcoin btcSkewChain).status = "success" ∧
    (measure_bitcoin btcSkewChain).tps = some (Rat.divInt (-3) 500) ∧
    Rat.divInt (-3) 500 < 0 := by decide

/-- C3 (amended): a success result carries nonnegative estimates for the
account-model and Cosmos samplers against every possible oracle; for the
Bitcoin sampler this holds provided the fetched blocks' timestamps are
monotone in height (clock-skewed responses can break it). -/
theorem C3_success_nonneg :
    (∀ get : EvmQuery → Option EvmBlock, (measure_evm get).status = "success" →
      (measure_evm get).tps ≠ none ∧ ∀ q, (measure_evm get).tps = some q → 0 ≤ q) ∧
    (∀ c : CosmosChain, (measure_cosmos c).status = "success" →
      ((∀ q, (measure_cosmos c).tps = some q → 0 ≤ q) ∧
       (∀ q, (measure_cosmos c).totalTxCount = some q → 0 ≤ q))) ∧
    (∀ bc : BtcChain,
      (∀ n m bn bm, n ≤ m → bc.blockAt n = some bn → bc.blockAt m = some bm →
        bn.time ≤ bm.time) →
      (measure_bitcoin bc).status = "success" →
      ∀ q, (measure_bitcoin bc).tps = some q → 0 ≤ q) := by
  refine ⟨?_, ?_, ?_⟩
  · intro get hs
    rcases measure_evm_shape get with ⟨he, _, _⟩ | ⟨ln, lt, asn, ats, heq⟩
    · rw [he] at hs
      exact absurd hs (by decide)
    · rw [heq] at hs ⊢
      exact (evmFinish_props get ln lt asn ats).1 hs
  · intro c hs
    rcases measure_cosmos_shape c with ⟨he, _, _, _⟩ | ⟨lb, sb, heq⟩
    · rw [he] at hs
      exact absurd hs (by decide)
    · rw [heq] at hs ⊢
      exact (cosmosFinish_props c lb sb).1 hs
  · intro bc hmono hs q hq
    rcases measure_bitcoin_shape bc with ⟨he, _, _⟩ |
      ⟨hgt, lb, blks, ob, hinfo, hlb, hblks, hob, heq⟩
    · rw [he] at hs
      exact absurd hs (by decide)
    · rw [heq] at hq
      have hq2 : some (qDiv ((txSumBtc blks : Nat) : Rat)
          ((pyFixZero (lb.time - ob.time) : Int) : Rat)) = some q := hq
      rw [← Option.some.injEq _ q |>.mp hq2]
      by_cases hneg : 0 ≤ hgt
      · have hle : pyMax 0 (hgt - 3) ≤ hgt := by
          unfold pyMax
          split <;> omega
        have ht := hmono _ _ _ _ hle hob hlb
        exact qDiv_nonneg (Nat.cast_nonneg _)
          (Int.cast_nonneg.mpr
            (by have := pyFixZero_ge_one (lb.time - ob.time) (by omega); omega))
      · have hempty : btcSampleHeights hgt = [] := by
          unfold btcSampleHeights
          simp [List.takeWhile_cons, hneg]
        rw [hempty] at hblks
        have h0 : ([] : List Int).mapM bc.blockAt = some [] := rfl
        rw [h0] at hblks
        have hbe : blks = [] := (Option.some.injEq _ _ |>.mp hblks).symm
        subst hbe
        rw [qDiv_eq]
        simp [txSumBtc]

/-- C3 witness: the synthetic account-model chain yields a success with
a present estimate. -/
theorem C3_success_nonneg_witness :
    (measure_evm synthEvmChain).status = "success" ∧
    (measure_evm synthEvmChain).tps ≠ none :=
  ⟨by decide, (C3_success_nonneg.1 synthEvmChain (by decide)).1⟩

/-- C6 counterexample: in the Bitcoin sampler the clock-skew chain makes
the TPS divisor -1000 on a success run, so the divisor is not
`max(T_latest - T_old, 1)` and is below 1. -/
theorem C6_counterexample :
    (measure_bitcoin btcSkewChain).status = "success" ∧
    (measure_bitcoin btcSkewChain).divisor = some (-1000) ∧
    ¬ (1 ≤ (-1000 : Int)) := by decide

/-- C6 (amended): the account-model sampler's divisor fix equals
`max(Δt, 1)` and its divisor is at least 1; the Cosmos divisor is
positive; the Bitcoin sampler replaces only a zero Δt, its divisor is at
least 1 only for chains with a nonnegative head height and monotone
timestamps. -/
theorem C6_divisor_bounds :
    (∀ x : Int, pyFixNonpos x = max x 1) ∧
    (∀ (get : EvmQuery → Option EvmBlock) d, (measure_evm get).divisor = some d → 1 ≤ d) ∧
    (∀ (c : CosmosChain) q, (measure_cosmos c).divisor = some q → 0 < q) ∧
    (∀ bc : BtcChain,
      (∀ n m bn bm, n ≤ m → bc.blockAt n = some bn → bc.blockAt m = some bm →
        bn.time ≤ bm.time) →
      (∀ g, bc.info = some g → 0 ≤ g) →
      ∀ d, (measure_bitcoin bc).divisor = some d → 1 ≤ d) := by
  refine ⟨?_, ?_, ?_, ?_⟩
  · intro x
    rw [max_def]
    unfold pyFixNonpos
    split <;> split <;> omega
  · intro get d hd
    rcases measure_evm_shape get with ⟨_, _, hdiv⟩ | ⟨ln, lt, asn, ats, heq⟩
    · rw [hdiv] at hd
      exact absurd hd (by simp)
    · rw [heq] at hd
      exact (evmFinish_props get ln lt asn ats).2 d hd
  · intro c q hq
    rcases measure_cosmos_shape c with ⟨_, _, _, hdiv⟩ | ⟨lb, sb, heq⟩
    · rw [hdiv] at hq
      exact absurd hq (by simp)
    · rw [heq] at hq
      exact (cosmosFinish_props c lb sb).2 q hq
  · intro bc hmono hh d hd
    rcases measure_bitcoin_shape bc with ⟨_, _, hdiv⟩ |
      ⟨hgt, lb, blks, ob, hinfo, hlb, hblks, hob, heq⟩
    · rw [hdiv] at hd
      exact absurd hd (by simp)
    · rw [heq] at hd
      have hd2 : some (pyFixZero (lb.time - ob.time)) = some d := hd
      rw [← Option.some.injEq _ d |>.mp hd2]
      have hpos := hh hgt hinfo
      have hle : pyMax 0 (hgt - 3) ≤ hgt := by
        unfold pyMax
        split <;> omega
      have ht := hmono _ _ _ _ hle hob hlb
      exact pyFixZero_ge_one _ (by omega)

/-- C6 witness: the synthetic account-model chain's divisor is 600 ≥ 1. -/
theorem C6_divisor_bounds_witness :
    (measure_evm synthEvmChain).divisor = some 600 ∧ (1 : Int) ≤ 600 :=
  ⟨by decide, C6_divisor_bounds.2.1 synthEvmChain 600 (by decide)⟩

/-- C10 counterexample: the gate is not total.  An out-of-range explicit
port makes the `parsed.port` access raise ValueError past the handlers,
and a `socket.getaddrinfo` exception other than gaierror (such as the
UnicodeError raised for a label that cannot be IDNA-encoded) propagates
uncaught. -/
theorem C10_counterexample :
    is_safe_url (fun _ _ => .ok ["8.8.8.8"]) "http://example.com:99999/" =
      .exn "ValueError: Port out of range 0-65535" ∧
    is_safe_url (fun _ _ => .exn "UnicodeError: encoding with idna codec failed")
        "http://aaaaaaaaaaaaaaaaaaaaaaaaaaaaaaaaaaaaaaaaaaaaaaaaaaaaaaaaaaaaaaaaaaaa.example/" =
      .exn "UnicodeError: encoding with idna codec failed" := by decide

/-- C10 (amended): on every non-raising path the gate's two return values
are linked: allowed is true iff the reason is None, and allowed is false
iff the reason is a non-empty string. -/
theorem C10_gate_invariant :
    ∀ (dns : String → Nat → Dns) (url : String) (allowed : Bool) (reason : Option String),
      is_safe_url dns url = .ok (allowed, reason) →
      ((allowed = true ↔ reason = none) ∧
       (allowed = false ↔ (reason ≠ none ∧ reason ≠ some ""))) := by
  intro dns url allowed reason h
  unfold is_safe_url gateVerdict dnsVerdict at h
  repeat' split at h
  all_goals simp_all
  all_goals (rcases h with ⟨-, rfl⟩; exact ⟨by simp, by simp⟩)

/-- C10 witness: the invariant evaluated on the localhost rejection. -/
theorem C10_gate_invariant_witness :
    (false = true ↔ (some "localhost_blocked" : Option String) = none) ∧
    (false = false ↔ ((some "localhost_blocked" : Option String) ≠ none ∧
      (some "localhost_blocked" : Option String) ≠ some "")) :=
  C10_gate_invariant (fun _ _ => .gaiError) "http://localhost/x" false
    (some "localhost_blocked") (by decide)

/-- C1: the Safe Fetch Gate's validate function returns the verdict the
specified ordered algorithm prescribes: a non-http(s) scheme is rejected
with invalid_scheme; an empty hostname with missing_host; localhost,
names ending in .localhost or .local and the loopback aliases with
localhost_blocked; a literal private IP with private_ip_blocked (a
public literal is allowed); a hostname whose DNS resolution fails with
dns_error; a hostname any of whose resolved addresses is private with
private_ip_blocked; and a hostname resolving only to public addresses is
allowed.  In particular http://127.0.0.1/x yields private_ip_blocked,
http://localhost/x yields localhost_blocked, and a hostname resolving
only to 10.0.0.5 yields private_ip_blocked. -/
theorem C1_gate_ordered_algorithm :
    (∀ (dns : String → Nat → Dns) (url : String) (p : UrlParts),
      pyUrlparse url = some p →
      ((¬ (p.scheme = "http" ∨ p.scheme = "https") →
          is_safe_url dns url = .ok (false, some "invalid_scheme")) ∧
       ((p.scheme = "http" ∨ p.scheme = "https") → p.hostname = none →
          is_safe_url dns url = .ok (false, some "missing_host")) ∧
       (∀ host, (p.scheme = "http" ∨ p.scheme = "https") → p.hostname = some host →
          isLocalhostHost (hostNorm host) = true →
          is_safe_url dns url = .ok (false, some "localhost_blocked")) ∧
       (∀ host ip, (p.scheme = "http" ∨ p.scheme = "https") → p.hostname = some host →
          isLocalhostHost (hostNorm host) = false →
          ip_address (hostNorm host) = some ip →
          (is_private_ip ip = true →
            is_safe_url dns url = .ok (false, some "private_ip_blocked")) ∧
          (is_private_ip ip = false → is_safe_url dns url = .ok (true, none))) ∧
       (∀ host po, (p.scheme = "http" ∨ p.scheme = "https") → p.hostname = some host →
          isLocalhostHost (hostNorm host) = false →
          ip_address (hostNorm host) = none →
          pyPortVal p.portRaw = .ok po →
          ((dns host (effectivePort p.scheme po) = .gaiError →
             is_safe_url dns url = .ok (false, some "dns_error")) ∧
           (∀ addrs, dns host (effectivePort p.scheme po) = .ok addrs →
             (anyPrivateAddr addrs = true →
               is_safe_url dns url = .ok (false, some "private_ip_blocked")) ∧
             (anyPrivateAddr addrs = false →
               is_safe_url dns url = .ok (true, none))))))) ∧
    (∀ dns : String → Nat → Dns,
      is_safe_url dns "http://127.0.0.1/x" = .ok (false, some "private_ip_blocked")) ∧
    (∀ dns : String → Nat → Dns,
      is_safe_url dns "http://localhost/x" = .ok (false, some "localhost_blocked")) ∧
    (∀ dns : String → Nat → Dns, dns "example.com" 80 = .ok ["10.0.0.5"] →
      is_safe_url dns "http://example.com/x" = .ok (false, some "private_ip_blocked")) := by
  refine ⟨?_, ?_, ?_, ?_⟩
  · intro dns url p hp
    have hlink := is_safe_url_parsed dns url p hp
    refine ⟨?_, ?_, ?_, ?_, ?_⟩
    · intro hbad
      rw [hlink]
      unfold gateVerdict
      rw [if_pos hbad]
    · intro hsch hnone
      rw [hlink]
      unfold gateVerdict
      rw [if_neg (not_not_intro hsch)]
      rw [hnone]
    · intro host hsch hhost hloc
      rw [hlink]
      unfold gateVerdict
      rw [if_neg (not_not_intro hsch)]
      simp only [hhost]
      rw [if_pos hloc]
    · intro host ip hsch hhost hloc hip
      constructor
      · intro hpriv
        rw [hlink]
        unfold gateVerdict
        rw [if_neg (not_not_intro hsch)]
        simp only [hhost]
        rw [if_neg (by simp [hloc])]
        simp only [hip]
        rw [if_pos hpriv]
      · intro hpub
        rw [hlink]
        unfold gateVerdict
        rw [if_neg (not_not_intro hsch)]
        simp only [hhost]
        rw [if_neg (by simp [hloc])]
        simp only [hip]
        rw [if_neg (by simp [hpub])]
    · intro host po hsch hhost hloc hip hport
      constructor
      · intro hdns
        rw [hlink]
        unfold gateVerdict
        rw [if_neg (not_not_intro hsch)]
        simp only [hhost]
        rw [if_neg (by simp [hloc])]
        simp only [hip, hport]
        rw [hdns]
        rfl
      · intro addrs hdns
        constructor
        · intro hpriv
          rw [hlink]
          unfold gateVerdict
          rw [if_neg (not_not_intro hsch)]
          simp only [hhost]
          rw [if_neg (by simp [hloc])]
          simp only [hip, hport]
          rw [hdns]
          unfold dnsVerdict
          simp [hpriv]
        · intro hpub
          rw [hlink]
          unfold gateVerdict
          rw [if_neg (not_not_intro hsch)]
          simp only [hhost]
          rw [if_neg (by simp [hloc])]
          simp only [hip, hport]
          rw [hdns]
          unfold dnsVerdict
          simp [hpub]
  · intro dns
    rfl
  · intro dns
    rfl
  · intro dns h
    have hred : is_safe_url dns "http://example.com/x" = dnsVerdict (dns "example.com" 80) :=
      rfl
    rw [hred, h]
    rfl

/-- C1 witness: the DNS-rebinding defense evaluated on a hostname that
resolves only to 10.0.0.5. -/
theorem C1_gate_ordered_algorithm_witness :
    is_safe_url (fun _ _ => Dns.ok ["10.0.0.5"]) "http://example.com/x" =
      .ok (false, some "private_ip_blocked") :=
  C1_gate_ordered_algorithm.2.2.2 (fun _ _ => Dns.ok ["10.0.0.5"]) rfl

end ChainGuru
